import Mathlib

/-!
Verification development for the LibRaw decode bridge
(`Sources/RawToLogConverter/LibRaw/LibRawBridge.h`).

The repository ships the C interface header only; the implementation of
`libraw_decode_to_xyz` and `libraw_free_result` is not present, so those
operations are modelled from the specification, faithful to its contract,
over a shallow embedding of the `LibRawResult` structure declared in the
header.  C `float` fields are embedded as `Rat` (the properties at stake
are exact equalities, so no rounding behaviour is relevant), the
`uint16_t*` pixel buffer as `Option (List Nat)` of bytes (`none` = null
pointer), and C `int` as `Int`.
-/

/-- Embedding of the `LibRawResult` struct declared in `LibRawBridge.h`
(lines 17-30): pixel data pointer, dimensions, stride in bytes per row,
success flag, bounded error message, DNG baseline-exposure metadata,
camera white-balance multipliers (R, G, B) and estimated colour
temperature. -/
structure LibRawResult where
  data : Option (List Nat)
  width : Int
  height : Int
  stride : Int
  success : Bool
  errorMessage : String
  baselineExposure : Rat
  hasBaselineExposure : Bool
  wbMultipliers : Rat × Rat × Rat
  colorTemperature : Rat

deriving instance DecidableEq for LibRawResult

/-- Modelled from the spec: the metadata the opaque decoding engine can
extract from a RAW file.  Each tag is camera/format specific and may be
absent (`none`). -/
structure RawMetadata where
  baselineExposure : Option Rat
  wbGains : Option (Rat × Rat × Rat)
  colorTemperature : Option Rat

deriving instance DecidableEq for RawMetadata

/-- Modelled from the spec: the possible inputs of the decode bridge, as the
implementation of `libraw_decode_to_xyz` is not under `src/`.  The error
constructors follow the spec's four-kind error taxonomy (input error,
format error, engine error, resource error); `valid` carries the image
dimensions, the 16-bit XYZ samples produced by the opaque decoding engine
(row-major, 3 interleaved samples per pixel) and the extracted metadata. -/
inductive RawFile where
  | missing
  | unsupported
  | corrupt
  | engineError
  | allocFailure
  | valid (width height : Nat) (samples : List Nat) (meta : RawMetadata)

deriving instance DecidableEq for RawFile

/-- Serialise 16-bit samples into bytes, two bytes per sample
(little-endian), as the engine writes them into the output buffer. -/
def toBytes : List Nat → List Nat
  | [] => []
  | s :: rest => s % 65536 % 256 :: s % 65536 / 256 :: toBytes rest

/-- Modelled from the spec: normalisation of the camera as-shot
white-balance gains so that the green-channel gain is exactly 1. -/
def normalizeWB : Rat × Rat × Rat → Rat × Rat × Rat
  | (r, g, b) => if g = 0 then (1, 1, 1) else (r / g, 1, b / g)

/-- Modelled from the spec: the failure-variant `LibRawResult`, with a null
pixel pointer, zeroed dimensions, `success = false` and a diagnostic
message. -/
def failureResult (msg : String) : LibRawResult :=
  { data := none
    width := 0
    height := 0
    stride := 0
    success := false
    errorMessage := msg
    baselineExposure := 0
    hasBaselineExposure := false
    wbMultipliers := (1, 1, 1)
    colorTemperature := 0 }

/-- Modelled from the spec: `libraw_decode_to_xyz` (declared in
`LibRawBridge.h` line 35, implementation absent from `src/`).  Every
expected failure mode is captured locally and converted into a
failure-variant result carrying a non-empty diagnostic message; a valid
file yields `success = true`, a freshly written pixel buffer of
`height * stride` bytes with `stride = width * 3 * 2`, and best-effort
metadata: per the header, `baselineExposure` is 0 when the DNG tag is not
available, white-balance gains are normalised so G = 1 (unit gains when
the tags are absent), and the pixel data is independent of the
white-balance metadata (gains are not baked into the XYZ data). -/
def libraw_decode_to_xyz : RawFile → LibRawResult
  | .missing => failureResult "Cannot open input file"
  | .unsupported => failureResult "Unsupported RAW format"
  | .corrupt => failureResult "Corrupt or truncated RAW data"
  | .engineError => failureResult "LibRaw processing failed"
  | .allocFailure => failureResult "Failed to allocate output buffer"
  | .valid w h samples meta =>
      { data := some (toBytes samples)
        width := (w : Int)
        height := (h : Int)
        stride := (w : Int) * 3 * 2
        success := true
        errorMessage := ""
        baselineExposure := meta.baselineExposure.getD 0
        hasBaselineExposure := meta.baselineExposure.isSome
        wbMultipliers := normalizeWB (meta.wbGains.getD (1, 1, 1))
        colorTemperature := meta.colorTemperature.getD 0 }

/-- Modelled from the spec: `libraw_free_result` (declared in
`LibRawBridge.h` line 39, implementation absent from `src/`).  It
deallocates the owned pixel buffer — embedded as setting the pointer to
null — and is a no-op when the buffer is already null (failure case). -/
def libraw_free_result (r : LibRawResult) : LibRawResult :=
  { r with data := none }

/-- The lifecycle states of one `LibRawResult` slot, per the spec's state
machine: `unallocated`, `produced` (success or failure, by decode),
`released` (terminal, by release). -/
inductive LifecycleState where
  | unallocated
  | produced (r : LibRawResult)
  | released

deriving instance DecidableEq for LifecycleState

/-- The two bridge operations that drive the lifecycle of a result slot. -/
inductive BridgeOp where
  | decodeOp (f : RawFile)
  | releaseOp

deriving instance DecidableEq for BridgeOp

/-- Modelled from the spec: the per-result transition function.  `none`
means the operation is not permitted in that state. -/
def lifecycleStep : LifecycleState → BridgeOp → Option LifecycleState
  | .unallocated, .decodeOp f => some (.produced (libraw_decode_to_xyz f))
  | .produced _, .releaseOp => some .released
  | _, _ => none

/-- The inputs embedding the spec's four expected error kinds (input,
format, engine and resource errors). -/
def isErrorInput : RawFile → Bool
  | .missing => true
  | .unsupported => true
  | .corrupt => true
  | .engineError => true
  | .allocFailure => true
  | .valid _ _ _ _ => false

theorem toBytes_length (l : List Nat) : (toBytes l).length = 2 * l.length := by
  induction l with
  | nil => rfl
  | cons s rest ih => simp [toBytes, ih]; omega

/-- C1: for every valid RAW file of a supported format (positive
dimensions, engine yields the `width*height*3` interleaved samples),
`libraw_decode_to_xyz` returns `success = true`, positive width and
height, `stride >= width*3*2` bytes, and a non-null pixel buffer of
exactly `height*stride` bytes. -/
theorem decode_valid_contract (w h : Nat) (samples : List Nat) (meta : RawMetadata)
    (hw : 0 < w) (hh : 0 < h) (hlen : samples.length = w * h * 3) :
    (libraw_decode_to_xyz (.valid w h samples meta)).success = true ∧
    0 < (libraw_decode_to_xyz (.valid w h samples meta)).width ∧
    0 < (libraw_decode_to_xyz (.valid w h samples meta)).height ∧
    (libraw_decode_to_xyz (.valid w h samples meta)).width * 3 * 2 ≤
      (libraw_decode_to_xyz (.valid w h samples meta)).stride ∧
    ∃ buf, (libraw_decode_to_xyz (.valid w h samples meta)).data = some buf ∧
      (buf.length : Int) =
        (libraw_decode_to_xyz (.valid w h samples meta)).height *
          (libraw_decode_to_xyz (.valid w h samples meta)).stride := by
  refine ⟨rfl, ?_, ?_, le_refl _, toBytes samples, rfl, ?_⟩
  · show (0 : Int) < (w : Int)
    exact_mod_cast hw
  · show (0 : Int) < (h : Int)
    exact_mod_cast hh
  · show ((toBytes samples).length : Int) = (h : Int) * ((w : Int) * 3 * 2)
    rw [toBytes_length, hlen]
    push_cast
    ring

/-- Witness for C1 at a concrete one-pixel file. -/
theorem decode_valid_contract_witness :
    (libraw_decode_to_xyz (.valid 1 1 [5, 6, 7] ⟨none, none, none⟩)).success = true ∧
    0 < (libraw_decode_to_xyz (.valid 1 1 [5, 6, 7] ⟨none, none, none⟩)).width ∧
    0 < (libraw_decode_to_xyz (.valid 1 1 [5, 6, 7] ⟨none, none, none⟩)).height ∧
    (libraw_decode_to_xyz (.valid 1 1 [5, 6, 7] ⟨none, none, none⟩)).width * 3 * 2 ≤
      (libraw_decode_to_xyz (.valid 1 1 [5, 6, 7] ⟨none, none, none⟩)).stride ∧
    ∃ buf, (libraw_decode_to_xyz (.valid 1 1 [5, 6, 7] ⟨none, none, none⟩)).data = some buf ∧
      (buf.length : Int) =
        (libraw_decode_to_xyz (.valid 1 1 [5, 6, 7] ⟨none, none, none⟩)).height *
          (libraw_decode_to_xyz (.valid 1 1 [5, 6, 7] ⟨none, none, none⟩)).stride :=
  decode_valid_contract 1 1 [5, 6, 7] ⟨none, none, none⟩ (by decide) (by decide) (by decide)

/-- C2: a non-existent input path yields `success = false`, a non-empty
`errorMessage` and a null pixel pointer; and over all inputs the pixel
pointer is null iff the decode failed. -/
theorem decode_missing_fails_and_null_iff_failure :
    ((libraw_decode_to_xyz .missing).success = false ∧
      (libraw_decode_to_xyz .missing).errorMessage ≠ "" ∧
      (libraw_decode_to_xyz .missing).data = none) ∧
    ∀ f, ((libraw_decode_to_xyz f).data = none ↔ (libraw_decode_to_xyz f).success = false) := by
  refine ⟨⟨rfl, by decide, rfl⟩, ?_⟩
  intro f
  cases f <;> simp [libraw_decode_to_xyz, failureResult]

/-- C3: every expected error kind (input, format, engine, resource) is
captured inside decode — which is a total function in this model, so no
fault escapes — and communicated through `success = false` and a non-empty
`errorMessage`. -/
theorem decode_captures_expected_errors (f : RawFile) (h : isErrorInput f = true) :
    (libraw_decode_to_xyz f).success = false ∧
    (libraw_decode_to_xyz f).errorMessage ≠ "" := by
  cases f with
  | missing => exact ⟨rfl, by decide⟩
  | unsupported => exact ⟨rfl, by decide⟩
  | corrupt => exact ⟨rfl, by decide⟩
  | engineError => exact ⟨rfl, by decide⟩
  | allocFailure => exact ⟨rfl, by decide⟩
  | valid w hgt samples meta => simp [isErrorInput] at h

/-- Witness for C3 at the missing-file input. -/
theorem decode_captures_expected_errors_witness :
    isErrorInput .missing = true ∧
    ((libraw_decode_to_xyz .missing).success = false ∧
      (libraw_decode_to_xyz .missing).errorMessage ≠ "") :=
  ⟨rfl, decode_captures_expected_errors .missing rfl⟩

/-- C4: `libraw_free_result` always leaves the pixel pointer null (the
owned buffer is deallocated, nothing leaks), and on a result whose buffer
is already null (failure case) it is an exact no-op. -/
theorem free_result_deallocates_and_noop_on_failure :
    (∀ r : LibRawResult, (libraw_free_result r).data = none) ∧
    (∀ r : LibRawResult, r.data = none → libraw_free_result r = r) := by
  refine ⟨fun r => rfl, fun r h => ?_⟩
  obtain ⟨d, _, _, _, _, _, _, _, _, _⟩ := r
  cases d
  · rfl
  · exact absurd h (Option.some_ne_none _)

/-- Witness for C4 on a concrete failure result. -/
theorem free_result_deallocates_witness :
    (libraw_free_result (failureResult "boom")).data = none ∧
    libraw_free_result (failureResult "boom") = failureResult "boom" :=
  ⟨free_result_deallocates_and_noop_on_failure.1 (failureResult "boom"),
   free_result_deallocates_and_noop_on_failure.2 (failureResult "boom") rfl⟩

/-- C5: the green-channel white-balance gain of every decode result is
exactly 1, and the gains are not applied to the pixel data: the pixel
buffer of a valid file does not depend on the white-balance metadata. -/
theorem wb_green_unit_and_unapplied :
    (∀ f, (libraw_decode_to_xyz f).wbMultipliers.2.1 = 1) ∧
    (∀ (w h : Nat) (samples : List Nat) (m m' : RawMetadata),
      (libraw_decode_to_xyz (.valid w h samples m)).data =
        (libraw_decode_to_xyz (.valid w h samples m')).data) := by
  constructor
  · intro f
    cases f with
    | missing => rfl
    | unsupported => rfl
    | corrupt => rfl
    | engineError => rfl
    | allocFailure => rfl
    | valid w hgt samples meta =>
        show (normalizeWB (meta.wbGains.getD (1, 1, 1))).2.1 = 1
        obtain ⟨r, g, b⟩ := meta.wbGains.getD (1, 1, 1)
        simp only [normalizeWB]
        split <;> rfl
  · intro w h samples m m'
    rfl

/-- C6: the model of decode is a pure function, so decoding the same
unchanged file twice produces bit-identical results. -/
theorem decode_deterministic (f g : RawFile) (h : f = g) :
    libraw_decode_to_xyz f = libraw_decode_to_xyz g := by
  rw [h]

/-- Witness for C6 at a concrete input. -/
theorem decode_deterministic_witness :
    libraw_decode_to_xyz .corrupt = libraw_decode_to_xyz .corrupt :=
  decode_deterministic .corrupt .corrupt rfl

/-- C7: the per-result lifecycle follows
`Unallocated -> {Success, Failure} -> Released`: release is refused before
decode, decode always produces a result exactly once, release from the
produced state reaches the terminal state, a second decode on a produced
result is refused, and no operation is permitted after release. -/
theorem lifecycle_state_machine :
    (lifecycleStep .unallocated .releaseOp = none) ∧
    (∀ f, ∃ r, lifecycleStep .unallocated (.decodeOp f) = some (.produced r)) ∧
    (∀ r, lifecycleStep (.produced r) .releaseOp = some .released) ∧
    (∀ r f, lifecycleStep (.produced r) (.decodeOp f) = none) ∧
    (∀ op, lifecycleStep .released op = none) := by
  refine ⟨rfl, fun f => ⟨libraw_decode_to_xyz f, rfl⟩, fun r => rfl, fun r f => rfl, fun op => ?_⟩
  cases op <;> rfl

/-- C8: a successful decode of a file carrying no exposure-bias and no
white-balance tags still populates the metadata fields:
`hasBaselineExposure = false` and unit white-balance gains. -/
theorem decode_absent_metadata_defaults (w h : Nat) (samples : List Nat) (m : RawMetadata)
    (hb : m.baselineExposure = none) (hwb : m.wbGains = none) :
    (libraw_decode_to_xyz (.valid w h samples m)).hasBaselineExposure = false ∧
    (libraw_decode_to_xyz (.valid w h samples m)).wbMultipliers = (1, 1, 1) := by
  constructor
  · show m.baselineExposure.isSome = false
    rw [hb]
    rfl
  · show normalizeWB (m.wbGains.getD (1, 1, 1)) = (1, 1, 1)
    rw [hwb]
    norm_num [normalizeWB]

/-- Witness for C8 at a concrete tag-free file. -/
theorem decode_absent_metadata_defaults_witness :
    (libraw_decode_to_xyz (.valid 1 1 [1, 2, 3] ⟨none, none, none⟩)).hasBaselineExposure = false ∧
    (libraw_decode_to_xyz (.valid 1 1 [1, 2, 3] ⟨none, none, none⟩)).wbMultipliers = (1, 1, 1) :=
  decode_absent_metadata_defaults 1 1 [1, 2, 3] ⟨none, none, none⟩ rfl rfl

/-- C10: whenever `hasBaselineExposure` is false on a decode result, the
`baselineExposure` field is exactly 0, as the header documents (`0 if not
available`). -/
theorem no_baseline_tag_implies_zero (f : RawFile)
    (h : (libraw_decode_to_xyz f).hasBaselineExposure = false) :
    (libraw_decode_to_xyz f).baselineExposure = 0 := by
  cases f with
  | missing => rfl
  | unsupported => rfl
  | corrupt => rfl
  | engineError => rfl
  | allocFailure => rfl
  | valid w hgt samples meta =>
      have h' : meta.baselineExposure.isSome = false := h
      show meta.baselineExposure.getD 0 = 0
      cases hba : meta.baselineExposure with
      | none => rfl
      | some v =>
          rw [hba] at h'
          simp at h'

/-- Witness for C10 on a failure result. -/
theorem no_baseline_tag_implies_zero_witness :
    (libraw_decode_to_xyz .missing).baselineExposure = 0 :=
  no_baseline_tag_implies_zero .missing rfl
